import Mathlib

/-!
# Verification of the change-capture & audit pipeline

Shallow embedding of the Python sources of the `cicd-example8` repository:

* `mysql-binlog-analyzer/src/event_parser.py`  (`BinlogEventParser`)
* `mysql-binlog-analyzer/src/binlog_reader.py` (`BinlogReader`)
* `mysql-change-monitor/src/storage/change_storage.py` (`ChangeStorage`)
* `mysql-change-monitor/src/collectors/binlog_collector.py` (`BinlogCollector`)
* `mysql-change-monitor/monitor.py` (`ChangeMonitor`)
* `mysql-audit-solution/src/analyzers/sql_injection_detector.py` (`SQLInjectionDetector`)
* `mysql-audit-solution/src/audit_monitor.py` (`MySQLAuditMonitor`)

Python dictionaries of row values are modelled as insertion-ordered
association lists `List (String × Value)`; `Value` models the scalar
universe relevant to the verified claims (SQL `NULL`, strings, integers).
-/

namespace Pipeline

/-- A row value as it appears in a parsed binlog row.  The universe models
`None` (SQL NULL), Python `str` and Python `int` values; for these three
kinds the type-conversion step of the parser is the identity (none of the
`datetime`/`date`/`time`/`decimal`/`bytes` branches of
`_convert_single_value` fires on them). -/
inductive Value where
  | null
  | str (s : String)
  | int (n : Int)
deriving DecidableEq, Repr

/-- A Python dict of column name to value, in insertion order. -/
abbrev RowData := List (String × Value)

/-- `d.get(c)` returning `Option`: the first binding of `c`, if any
(Python dicts have unique keys; on lists we take the first binding). -/
def lookupVal : RowData → String → Option Value
  | [], _ => none
  | (k, v) :: rest, c => if k = c then some v else lookupVal rest c

/-- Python `data.get(column)`: `None` when the key is absent. -/
def dictGet (d : RowData) (c : String) : Value :=
  (lookupVal d c).getD Value.null

/-- Python `column in data`. -/
def hasKey (d : RowData) (c : String) : Bool :=
  (lookupVal d c).isSome

/-- Python `d[c] = v`: replace the value at the first binding of `c`,
appending a new binding if the key is absent. -/
def setKey : RowData → String → Value → RowData
  | [], c, v => [(c, v)]
  | (k, w) :: rest, c, v =>
      if k = c then (k, v) :: rest else (k, w) :: setKey rest c v

/-- Python `str(value)`, restricted to the modelled universe (only applied
to non-`None` values by the masking code). -/
def pyStr : Value → String
  | .null => "None"
  | .str s => s
  | .int n => toString n

/-- Python `s.lower()` (character-wise; the sources only lowercase ASCII
identifiers and SQL text). -/
def strLower (s : String) : String :=
  String.mk (s.toList.map Char.toLower)

/-- Python `len(s)` (number of characters). -/
def strLen (s : String) : Nat :=
  s.toList.length

/-- Python `s[:n]` (first `n` characters). -/
def strTake (s : String) (n : Nat) : String :=
  String.mk (s.toList.take n)

/-- Python `s[-n:]` (last `n` characters; callers guard `len(s) ≥ n`). -/
def strTakeRight (s : String) (n : Nat) : String :=
  String.mk (s.toList.drop (s.toList.length - n))

/-- Python `needle in haystack` on strings: substring containment. -/
def strContains (haystack needle : String) : Bool :=
  let n := needle.toList
  let rec go : List Char → Bool
    | [] => n.isPrefixOf []
    | c :: rest => n.isPrefixOf (c :: rest) || go rest
  go haystack.toList

/-! ## `BinlogEventParser` (mysql-binlog-analyzer/src/event_parser.py) -/

/-- `primary_key` entry of a target-table config: a single column name or a
composite list of columns (`_extract_primary_key` handles both). -/
inductive PKSpec where
  | single (c : String)
  | composite (cs : List String)
deriving DecidableEq, Repr

/-- One entry of `BinlogEventParser.target_tables`
(built by `_load_target_tables`). -/
structure TableConfig where
  database : String
  table : String
  operations : List String
  track_columns : List String
  primary_key : PKSpec
  sensitive_columns : List String
deriving DecidableEq, Repr

/-- `_convert_single_value`: on the modelled universe (`None`, `str`,
`int`) every `isinstance`/`hasattr` branch misses and the value is
returned unchanged ("其他类型直接返回"). -/
def convertSingleValue : Value → Value
  | .null => .null
  | .str s => .str s
  | .int n => .int n

/-- `_convert_data_types`: convert every value of the dict. -/
def convertDataTypes (data : RowData) : RowData :=
  data.map (fun kv => (kv.1, convertSingleValue kv.2))

/-- The projection loop of `_filter_columns`:
`for column in track_columns: if column in data: filtered[column] = data[column]`. -/
def projectTracked (data : RowData) (track : List String) : RowData :=
  track.foldl
    (fun acc c =>
      match lookupVal data c with
      | some v => setKey acc c v
      | none => acc)
    []

/-- `_filter_columns`: with no `track_columns` return all columns, else
project the tracked ones; then `_convert_data_types`. -/
def filterColumns (data : RowData) (cfg : TableConfig) : RowData :=
  if cfg.track_columns.isEmpty then convertDataTypes data
  else convertDataTypes (projectTracked data cfg.track_columns)

/-- A per-column diff entry `{'old': o, 'new': n}`. -/
abbrev ChangeMap := List (String × (Value × Value))

/-- First loop of `_detect_changes`: every column of `new_data` whose value
differs from `old_data.get(column)`. -/
def detectChangesNew (old : RowData) : RowData → ChangeMap
  | [] => []
  | (c, nv) :: rest =>
      if dictGet old c ≠ nv then (c, (dictGet old c, nv)) :: detectChangesNew old rest
      else detectChangesNew old rest

/-- Second loop of `_detect_changes`: columns of `old_data` missing from
`new_data`, recorded as `{'old': ov, 'new': None}`. -/
def detectChangesRemoved (new : RowData) : RowData → ChangeMap
  | [] => []
  | (c, ov) :: rest =>
      if hasKey new c then detectChangesRemoved new rest
      else (c, (ov, Value.null)) :: detectChangesRemoved new rest

/-- `_detect_changes old_data new_data`. -/
def detectChanges (old new : RowData) : ChangeMap :=
  detectChangesNew old new ++ detectChangesRemoved new old

/-- `_mask_phone`. -/
def maskPhone (phone : String) : String :=
  if strLen phone ≥ 7 then strTake phone 3 ++ "****" ++ strTakeRight phone 4
  else "***"

/-- `email.split('@', 1)`: the part before the first `'@'` and the part
after it (only called when `'@' in email`). -/
def splitAtFirstAt (email : String) : String × String :=
  let rec go (acc : List Char) : List Char → String × String
    | [] => (String.mk acc.reverse, "")
    | c :: rest =>
        if c = '@' then (String.mk acc.reverse, String.mk rest)
        else go (c :: acc) rest
  go [] email.toList

/-- `_mask_email`. -/
def maskEmail (email : String) : String :=
  if strContains email "@" then
    let lp := (splitAtFirstAt email).1
    let domain := (splitAtFirstAt email).2
    if strLen lp > 2 then strTake lp 2 ++ "***@" ++ domain
    else "***@" ++ domain
  else "***"

/-- `_mask_card`. -/
def maskCard (card : String) : String :=
  if strLen card > 8 then strTake card 4 ++ "****" ++ strTakeRight card 4
  else "****"

/-- `_mask_default`. -/
def maskDefault (value : String) : String :=
  if strLen value > 6 then strTake value 2 ++ "***" ++ strTakeRight value 2
  else "***"

/-- `_mask_value value column`: dispatch on the (lowercased) column name;
`None` is returned unchanged, any other value is stringified first. -/
def maskValue (value : Value) (column : String) : Value :=
  match value with
  | .null => .null
  | v =>
      let s := pyStr v
      let lc := strLower column
      if strContains lc "password" then .str "***"
      else if strContains lc "phone" then .str (maskPhone s)
      else if strContains lc "email" then .str (maskEmail s)
      else if strContains lc "card" || strContains lc "account" then .str (maskCard s)
      else .str (maskDefault s)

/-- The loop body of `_mask_sensitive_data`:
`if column in masked_data and masked_data[column] is not None:
   masked_data[column] = _mask_value(masked_data[column], column)`. -/
def maskCol (m : RowData) (c : String) : RowData :=
  match lookupVal m c with
  | some v => if v ≠ Value.null then setKey m c (maskValue v c) else m
  | none => m

/-- `_mask_sensitive_data data table_config`. -/
def maskSensitiveData (data : RowData) (cfg : TableConfig) : RowData :=
  if cfg.sensitive_columns.isEmpty then data
  else cfg.sensitive_columns.foldl maskCol data

/-- `_extract_primary_key data table_config`. -/
def extractPrimaryKey (data : RowData) (cfg : TableConfig) : RowData :=
  match cfg.primary_key with
  | .single c => [(c, dictGet data c)]
  | .composite cs => cs.map (fun c => (c, dictGet data c))

/-- Result of `_parse_update_row` (the dict it returns).  The `id`,
`timestamp` and binlog-coordinate fields added by `_parse_single_row` are
carried by `ParsedRowEvent` below. -/
structure UpdateRowResult where
  old_data : RowData
  new_data : RowData
  changes : ChangeMap
  primary_key : RowData
  affected_columns : List String
deriving DecidableEq, Repr

/-- `_parse_update_row row table_config`: filter both images, compute the
diff on the *unmasked* filtered data, then mask `old_data`/`new_data`. -/
def parseUpdateRow (before_values after_values : RowData) (cfg : TableConfig) :
    UpdateRowResult :=
  let old_data := filterColumns before_values cfg
  let new_data := filterColumns after_values cfg
  let changes := detectChanges old_data new_data
  { old_data := maskSensitiveData old_data cfg
    new_data := maskSensitiveData new_data cfg
    changes := changes
    primary_key := extractPrimaryKey after_values cfg
    affected_columns := changes.map Prod.fst }

/-- Result of `_parse_insert_row`. -/
structure InsertRowResult where
  new_data : RowData
  primary_key : RowData
  affected_columns : List String
deriving DecidableEq, Repr

/-- `_parse_insert_row row table_config`. -/
def parseInsertRow (values : RowData) (cfg : TableConfig) : InsertRowResult :=
  let filtered := filterColumns values cfg
  let masked := maskSensitiveData filtered cfg
  { new_data := masked
    primary_key := extractPrimaryKey values cfg
    affected_columns := masked.map Prod.fst }

/-- Result of `_parse_delete_row`. -/
structure DeleteRowResult where
  old_data : RowData
  primary_key : RowData
  affected_columns : List String
deriving DecidableEq, Repr

/-- `_parse_delete_row row table_config`. -/
def parseDeleteRow (values : RowData) (cfg : TableConfig) : DeleteRowResult :=
  let filtered := filterColumns values cfg
  let masked := maskSensitiveData filtered cfg
  { old_data := masked
    primary_key := extractPrimaryKey values cfg
    affected_columns := masked.map Prod.fst }

/-! ## `BinlogCollector` (mysql-change-monitor/src/collectors/binlog_collector.py)

`_match_pattern` delegates to Python's `fnmatch.fnmatch`, a glob matcher
supporting `*`, `?` and `[seq]` character classes (with `!` negation and
`a-b` ranges; an unterminated `[` is a literal).  We embed that matcher. -/

/-- Scan the body of a `[...]` class up to the closing `]`; `none` when the
class is unterminated (then `[` is treated as a literal character). -/
def scanClass (acc : List Char) : List Char → Option (List Char × List Char)
  | [] => none
  | c :: rest =>
      if c = ']' then some (acc.reverse, rest)
      else scanClass (c :: acc) rest

/-- The class body after the optional negation: a `]` in first position is
a literal member, then everything up to the closing `]`. -/
def parseClassBody : List Char → Option (List Char × List Char)
  | ']' :: r => scanClass [']'] r
  | other => scanClass [] other

/-- Parse what follows a `[`: optional `!` negation, then the class body.
Returns (negated, class body, remaining pattern). -/
def parseBracket (cs : List Char) : Option (Bool × List Char × List Char) :=
  match cs with
  | '!' :: rest => (parseClassBody rest).map (fun br => (true, br.1, br.2))
  | rest => (parseClassBody rest).map (fun br => (false, br.1, br.2))

/-- Membership of a character in a class body: `a-b` is a range (a `-` in
first or last position is a literal), anything else a literal member. -/
def memClass : List Char → Char → Bool
  | [], _ => false
  | a :: '-' :: b :: rest, c => (a ≤ c && c ≤ b) || memClass rest c
  | a :: rest, c => (a = c) || memClass rest c

/-- One lexed token of a glob pattern. -/
inductive GlobTok where
  | star
  | qmark
  | lit (c : Char)
  | cls (neg : Bool) (body : List Char)
deriving DecidableEq, Repr

/-- Lex a glob pattern into tokens, fuelled by the pattern length (every
step consumes at least one character, so `cs.length` fuel always
suffices). -/
def lexGlobFuel : Nat → List Char → List GlobTok
  | 0, _ => []
  | _, [] => []
  | fuel + 1, '*' :: p => .star :: lexGlobFuel fuel p
  | fuel + 1, '?' :: p => .qmark :: lexGlobFuel fuel p
  | fuel + 1, '[' :: p =>
      match parseBracket p with
      | some (neg, body, rest) => .cls neg body :: lexGlobFuel fuel rest
      | none => .lit '[' :: lexGlobFuel fuel p
  | fuel + 1, c :: p => .lit c :: lexGlobFuel fuel p

/-- Lex a glob pattern into tokens. -/
def lexGlob (cs : List Char) : List GlobTok :=
  lexGlobFuel cs.length cs

/-- Do the remaining tokens match the empty string (all stars)? -/
def nilMatch : List GlobTok → Bool
  | [] => true
  | .star :: p => nilMatch p
  | _ => false

/-- Match `c :: s'` against a token list; `rec` matches `s'` against an
arbitrary token list (structural recursion helper for `toksMatch`). -/
def toksMatchCons (c : Char) (rec : List GlobTok → Bool) :
    List GlobTok → Bool
  | [] => false
  | .star :: p => toksMatchCons c rec p || rec (.star :: p)
  | .qmark :: p => rec p
  | .lit d :: p => (c = d) && rec p
  | .cls neg body :: p => (neg != memClass body c) && rec p

/-- Glob matching of a name against lexed tokens: `*` matches any
sequence, `?` any character, a class one character of its set. -/
def toksMatch : List Char → List GlobTok → Bool
  | [], p => nilMatch p
  | c :: s', p => toksMatchCons c (toksMatch s') p

/-- Python `fnmatch.fnmatch(name, pattern)` (POSIX `normcase` is the
identity). -/
def fnmatchMatch (name pattern : String) : Bool :=
  toksMatch name.toList (lexGlob pattern.toList)

/-- `BinlogCollector._match_pattern`: `fnmatch` on the lowercased name and
pattern. -/
def matchPattern (name pattern : String) : Bool :=
  fnmatchMatch (strLower name) (strLower pattern)

/-- Python `pattern.strip('"\'')`: remove leading and trailing quote
characters. -/
def stripQuotes (s : String) : String :=
  let isQuote := fun c => c = '"' || c = '\''
  String.mk ((s.toList.dropWhile isQuote).reverse.dropWhile isQuote).reverse

/-- `BinlogCollector._match_table_pattern`: a pattern containing a dot is
matched against `database.table`, otherwise against the bare table name. -/
def matchTablePattern (fullTableName tableOnly pattern : String) : Bool :=
  let p := stripQuotes pattern
  if strContains p "." then matchPattern (strLower fullTableName) (strLower p)
  else matchPattern (strLower tableOnly) (strLower p)

/-- The monitoring configuration fields read by
`BinlogCollector.__init__`. -/
structure CollectorConfig where
  monitoring_mode : String
  monitored_databases : List String
  target_tables : List String
  exclude_tables : List String
deriving DecidableEq, Repr

/-- The whitelist loop of `_should_monitor_table`: on the first matching
target pattern, return false if any exclude pattern matches the full
table name, else true; with no matching target, false. -/
def whitelistScan (cfg : CollectorConfig) (full tableOnly : String) :
    List String → Bool
  | [] => false
  | t :: rest =>
      if matchTablePattern full tableOnly t then
        !(cfg.exclude_tables.any (fun ex => matchPattern full ex))
      else whitelistScan cfg full tableOnly rest

/-- `BinlogCollector._should_monitor_table(schema, table)`. -/
def shouldMonitorTable (cfg : CollectorConfig) (schema table : String) : Bool :=
  if !cfg.monitored_databases.isEmpty && !(cfg.monitored_databases.contains schema) then
    false
  else
    let full := schema ++ "." ++ table
    if cfg.monitoring_mode = "whitelist" then
      if cfg.target_tables.isEmpty then false
      else whitelistScan cfg full table cfg.target_tables
    else if cfg.monitoring_mode = "blacklist" then
      !(cfg.exclude_tables.any (fun ex => matchPattern full ex))
    else false

/-! ## `ChangeMonitor` (mysql-change-monitor/monitor.py) -/

/-- The alert configuration keys read by `ChangeMonitor._should_alert`. -/
structure AlertSettings where
  critical_tables : List String
  bulk_threshold : Int
deriving DecidableEq, Repr

/-- A change record as produced by `BinlogCollector` and consumed by
`ChangeMonitor` / `ChangeStorage` (the dict built by
`_create_change_record` / `_process_query_event`).  `timestamp` is the
event time in epoch seconds. -/
structure ChangeRecord where
  timestamp : Int
  operation_type : String
  database_name : String
  table_name : String
  sql_statement : Option String
  user_name : Option String
  thread_id : Option Int
  rows_affected : Int
  execution_time : Int
  before_values : Option RowData
  after_values : Option RowData
  source : String
  binlog_file : Option String
  binlog_pos : Option Int
deriving DecidableEq, Repr

/-- `ChangeMonitor._should_alert(change_record)`: critical table, then DDL,
then bulk threshold, then DELETE. -/
def shouldAlert (cfg : AlertSettings) (r : ChangeRecord) : Bool :=
  if cfg.critical_tables.contains r.table_name then true
  else if r.operation_type = "DDL" then true
  else if r.rows_affected ≥ cfg.bulk_threshold then true
  else if r.operation_type = "DELETE" then true
  else false

/-- Number of alerts `ChangeMonitor._handle_change` emits for one change
record: `_send_alert` is invoked exactly when `_should_alert` is true. -/
def alertsEmitted (cfg : AlertSettings) (r : ChangeRecord) : Nat :=
  if shouldAlert cfg r then 1 else 0

/-! ## `ChangeStorage` (mysql-change-monitor/src/storage/change_storage.py) -/

/-- Key of a `change_stats` row: (date of the timestamp, database, table,
operation). -/
abbrev StatKey := Int × String × String × String

/-- `change_record['timestamp'].date()`, with epoch-second timestamps:
the day number. -/
def statDate (r : ChangeRecord) : Int := r.timestamp / 86400

/-- Lookup in the `change_stats` table (unique key). -/
def statCount : List (StatKey × Nat) → StatKey → Nat
  | [], _ => 0
  | (k, n) :: rest, q => if k = q then n else statCount rest q

/-- `INSERT OR REPLACE` of a stats row keyed by `k` with count `n`. -/
def statReplace : List (StatKey × Nat) → StatKey → Nat → List (StatKey × Nat)
  | [], k, n => [(k, n)]
  | (k', m) :: rest, k, n =>
      if k' = k then (k', n) :: rest else (k', m) :: statReplace rest k n

/-- `ChangeStorage._update_stats`: bump the per-(date, database, table,
operation) counter. -/
def updateStats (stats : List (StatKey × Nat)) (r : ChangeRecord) :
    List (StatKey × Nat) :=
  let k : StatKey := (statDate r, r.database_name, r.table_name, r.operation_type)
  statReplace stats k (statCount stats k + 1)

/-- Persistent state of `ChangeStorage` (sqlite backend): the `changes`
table in insertion order (autoincrement ids are the positions) and the
`change_stats` table. -/
structure StorageState where
  changes : List ChangeRecord
  stats : List (StatKey × Nat)
deriving DecidableEq, Repr

/-- The empty store right after `_create_sqlite_tables`. -/
def emptyStorage : StorageState := { changes := [], stats := [] }

/-- The body of the `try` block of `ChangeStorage.store_change`:
`_store_change_sqlite` (a plain `INSERT` of the record, committed), then
`_update_stats`.  A raised exception is modelled as `.error` carrying the
message and the state at the moment the exception escapes: a failure
inside `_store_change_sqlite` happens before its `commit`, so no row is
persisted; a failure inside `_update_stats` happens after the insert was
committed, so the record is already stored. -/
def storeChangeBody (storeRaises statsRaises : Bool) (st : StorageState)
    (r : ChangeRecord) : Except (String × StorageState) StorageState :=
  if storeRaises then .error ("Failed to store change record", st)
  else
    let st1 : StorageState := { st with changes := st.changes ++ [r] }
    if statsRaises then .error ("Failed to store change record", st1)
    else .ok { st1 with stats := updateStats st1.stats r }

/-- `ChangeStorage.store_change`: the `except Exception` clause swallows
any failure of the body (it only logs), so the call always returns
normally with the state the body reached. -/
def storeChange (storeRaises statsRaises : Bool) (st : StorageState)
    (r : ChangeRecord) : StorageState :=
  match storeChangeBody storeRaises statsRaises st r with
  | .ok st' => st'
  | .error (_, st') => st'

/-- Number of stored rows at a given binlog position. -/
def countAtPos (st : StorageState) (f : Option String) (p : Option Int) : Nat :=
  (st.changes.filter (fun r => r.binlog_file == f && r.binlog_pos == p)).length

/-! ## `BinlogReader` (mysql-binlog-analyzer/src/binlog_reader.py) -/

/-- A binlog position `{log_file, log_pos}` (`BinlogPosition`; its
wall-clock `timestamp` field is not modelled). -/
structure BinlogPos where
  log_file : String
  log_pos : Int
deriving DecidableEq, Repr

/-- One parsed row event: the dict built by
`BinlogEventParser._parse_single_row` merged with the per-operation
payload.  The nondeterministically fresh `id` (uuid4), wall-clock
`timestamp` and `server_id` fields are not modelled (no claim concerns
them). -/
structure ParsedRowEvent where
  database : String
  table : String
  operation : String
  binlog_file : String
  binlog_pos : Int
  old_data : Option RowData
  new_data : Option RowData
  changes : Option ChangeMap
  primary_key : RowData
  affected_columns : List String
deriving DecidableEq, Repr

/-- What `parse_row_event` hands back for one binlog event: the whole
event list when it parsed more than one row, the single event otherwise
(`events if len(events) > 1 else (events[0] if events else None)`).
This object is what gets enqueued as ONE queue item. -/
inductive ParsedItem where
  | one (e : ParsedRowEvent)
  | many (es : List ParsedRowEvent)
deriving DecidableEq, Repr

/-- `events if len(events) > 1 else (events[0] if events else None)`. -/
def packParsed : List ParsedRowEvent → Option ParsedItem
  | [] => none
  | [e] => some (.one e)
  | es => some (.many es)

/-- A raw binlog event as delivered by the replication stream (the event
classes the reader subscribes to).  Every event carries its
`packet.log_pos`; row events carry `packet.log_file`, schema, table and
row images. -/
inductive BinlogEvent where
  | rotate (packetLogPos : Int) (nextBinlog : String) (position : Int)
  | formatDesc (packetLogPos : Int)
  | write (schema table logFile : String) (logPos : Int) (rows : List RowData)
  | update (schema table logFile : String) (logPos : Int)
      (rows : List (RowData × RowData))
  | delete (schema table logFile : String) (logPos : Int) (rows : List RowData)
deriving DecidableEq, Repr

/-- `packet.log_pos` of an event. -/
def BinlogEvent.packetPos : BinlogEvent → Int
  | .rotate p _ _ => p
  | .formatDesc p => p
  | .write _ _ _ p _ => p
  | .update _ _ _ p _ => p
  | .delete _ _ _ p _ => p

/-- Generic association lookup (Python dict `.get` on string keys). -/
def assocFind {α : Type} : List (String × α) → String → Option α
  | [], _ => none
  | (k, v) :: rest, q => if k = q then some v else assocFind rest q

/-- `_parse_single_row` for an INSERT row. -/
def parsedOfInsert (schema table logFile : String) (logPos : Int)
    (cfg : TableConfig) (values : RowData) : ParsedRowEvent :=
  let r := parseInsertRow values cfg
  { database := schema, table := table, operation := "INSERT"
    binlog_file := logFile, binlog_pos := logPos
    old_data := none, new_data := some r.new_data, changes := none
    primary_key := r.primary_key, affected_columns := r.affected_columns }

/-- `_parse_single_row` for an UPDATE row. -/
def parsedOfUpdate (schema table logFile : String) (logPos : Int)
    (cfg : TableConfig) (row : RowData × RowData) : ParsedRowEvent :=
  let r := parseUpdateRow row.1 row.2 cfg
  { database := schema, table := table, operation := "UPDATE"
    binlog_file := logFile, binlog_pos := logPos
    old_data := some r.old_data, new_data := some r.new_data
    changes := some r.changes
    primary_key := r.primary_key, affected_columns := r.affected_columns }

/-- `_parse_single_row` for a DELETE row. -/
def parsedOfDelete (schema table logFile : String) (logPos : Int)
    (cfg : TableConfig) (values : RowData) : ParsedRowEvent :=
  let r := parseDeleteRow values cfg
  { database := schema, table := table, operation := "DELETE"
    binlog_file := logFile, binlog_pos := logPos
    old_data := some r.old_data, new_data := none, changes := none
    primary_key := r.primary_key, affected_columns := r.affected_columns }

/-- `BinlogEventParser.parse_row_event`: look up the table config by
`schema.table`, map the event class to an operation, drop the event when
the operation is not monitored, parse each row, and pack the result. -/
def parseRowEvent (targets : List (String × TableConfig)) :
    BinlogEvent → Option ParsedItem
  | .write schema table logFile logPos rows =>
      match assocFind targets (schema ++ "." ++ table) with
      | none => none
      | some cfg =>
          if cfg.operations.contains "INSERT" then
            packParsed (rows.map (parsedOfInsert schema table logFile logPos cfg))
          else none
  | .update schema table logFile logPos rows =>
      match assocFind targets (schema ++ "." ++ table) with
      | none => none
      | some cfg =>
          if cfg.operations.contains "UPDATE" then
            packParsed (rows.map (parsedOfUpdate schema table logFile logPos cfg))
          else none
  | .delete schema table logFile logPos rows =>
      match assocFind targets (schema ++ "." ++ table) with
      | none => none
      | some cfg =>
          if cfg.operations.contains "DELETE" then
            packParsed (rows.map (parsedOfDelete schema table logFile logPos cfg))
          else none
  | _ => none

/-- Mutable state of a `BinlogReader`.  `persisted_checkpoint` models the
durable checkpoint record required by the spec (the value a restarted
process could read back); the source never writes one, so no function of
this development ever sets it.  `last_checkpoint_time` and times below
are epoch seconds. -/
structure ReaderState where
  current_position : BinlogPos
  event_queue : List ParsedItem
  queue_maxsize : Nat
  reader_targets : List String
  parser_targets : List (String × TableConfig)
  events_processed : Nat
  events_filtered : Nat
  checkpoint_interval : Int
  last_checkpoint_time : Int
  persisted_checkpoint : Option BinlogPos
deriving DecidableEq, Repr

/-- `BinlogReader._is_target_table_event`. -/
def isTargetTableEvent (st : ReaderState) : BinlogEvent → Bool
  | .write schema table _ _ _ => st.reader_targets.contains (schema ++ "." ++ table)
  | .update schema table _ _ _ => st.reader_targets.contains (schema ++ "." ++ table)
  | .delete schema table _ _ _ => st.reader_targets.contains (schema ++ "." ++ table)
  | _ => false

/-- `BinlogReader._process_binlog_event`.  The producer enqueues with
`self.event_queue.put(parsed_event, timeout=1)`: when the queue is full
and no consumer frees a slot within the 1-second timeout, `queue.Full` is
raised, caught, and the event is dropped with a warning
("事件队列已满，丢弃事件").  The model takes the queue-full view at the moment
of the call: a full queue drops the item, a non-full queue accepts it.
Event callbacks (run after a successful put) are not modelled. -/
def processBinlogEvent (st : ReaderState) (ev : BinlogEvent) : ReaderState :=
  let st := { st with events_processed := st.events_processed + 1 }
  let st := { st with
    current_position := { st.current_position with log_pos := ev.packetPos } }
  match ev with
  | .rotate _ nextBinlog position =>
      { st with current_position := { log_file := nextBinlog, log_pos := position } }
  | .formatDesc _ => st
  | _ =>
      if isTargetTableEvent st ev then
        match parseRowEvent st.parser_targets ev with
        | some item =>
            if st.event_queue.length < st.queue_maxsize then
              { st with event_queue := st.event_queue ++ [item] }
            else st
        | none => st
      else { st with events_filtered := st.events_filtered + 1 }

/-- `BinlogReader._should_checkpoint`:
`time.time() - self.last_checkpoint_time > self.checkpoint_interval`. -/
def shouldCheckpoint (st : ReaderState) (now : Int) : Bool :=
  now - st.last_checkpoint_time > st.checkpoint_interval

/-- `BinlogReader._save_checkpoint`: the body logs the position at debug
level and resets `last_checkpoint_time`; nothing is written to any file
or database (the persistence spot is an unimplemented comment in the
source), so the durable checkpoint record is left untouched. -/
def saveCheckpoint (st : ReaderState) (now : Int) : ReaderState :=
  { st with last_checkpoint_time := now }

/-! ## `SQLInjectionDetector`
(mysql-audit-solution/src/analyzers/sql_injection_detector.py)

The detector's rules are Python regular expressions searched with
`re.finditer`.  We embed a regular-expression engine (Brzozowski
derivatives) and transliterate each pattern.  Existence of a match
anywhere in the text (what the detection list depends on) is full-match
against `.*pattern.*`. -/

/-- Regular expressions over characters. -/
inductive RE where
  | emp
  | eps
  | pred (p : Char → Bool)
  | seq (a b : RE)
  | alt (a b : RE)
  | star (a : RE)

/-- Does the expression accept the empty string? -/
def RE.nullable : RE → Bool
  | .emp => false
  | .eps => true
  | .pred _ => false
  | .seq a b => a.nullable && b.nullable
  | .alt a b => a.nullable || b.nullable
  | .star _ => true

/-- Sequencing with pruning of `emp`/`eps`. -/
def mkSeq : RE → RE → RE
  | .emp, _ => .emp
  | _, .emp => .emp
  | .eps, b => b
  | a, .eps => a
  | a, b => .seq a b

/-- Alternation with pruning of `emp`. -/
def mkAlt : RE → RE → RE
  | .emp, b => b
  | a, .emp => a
  | a, b => .alt a b

/-- Brzozowski derivative with respect to one character. -/
def RE.deriv (c : Char) : RE → RE
  | .emp => .emp
  | .eps => .emp
  | .pred p => if p c then .eps else .emp
  | .seq a b =>
      if a.nullable then mkAlt (mkSeq (a.deriv c) b) (b.deriv c)
      else mkSeq (a.deriv c) b
  | .alt a b => mkAlt (a.deriv c) (b.deriv c)
  | .star a => mkSeq (a.deriv c) (.star a)

/-- Full match of a character list. -/
def reFull (r : RE) (cs : List Char) : Bool :=
  (cs.foldl (fun r c => r.deriv c) r).nullable

/-- Matches any character (used only for the search wrapper, which stands
for "at any position", not for Python's newline-excluding `.`). -/
def reAny : RE := .pred (fun _ => true)

/-- `re.search`-style: does the pattern match anywhere in the string? -/
def reSearch (r : RE) (s : String) : Bool :=
  reFull (.seq (.star reAny) (.seq r (.star reAny))) s.toList

/-- A case-insensitive literal (all the detector's patterns carry
`(?i)`). -/
def litCI (s : String) : RE :=
  s.toList.foldr (fun c acc => .seq (.pred (fun d => d.toLower = c.toLower)) acc) .eps

/-- Concatenation of a pattern list. -/
def catRE (rs : List RE) : RE := rs.foldr .seq .eps

/-- Alternation of a pattern list. -/
def altRE : List RE → RE
  | [] => .emp
  | [r] => r
  | r :: rs => .alt r (altRE rs)

/-- Python `\s` (ASCII whitespace). -/
def wsRE : RE :=
  .pred (fun c => c = ' ' || c = '\t' || c = '\n' || c = '\r' || c = '\x0b' || c = '\x0c')

/-- Python `\d`. -/
def digitRE : RE := .pred Char.isDigit

/-- Python `\w`. -/
def wordRE : RE := .pred (fun c => c.isAlphanum || c = '_')

/-- Python `.` (no DOTALL: everything but newline). -/
def dotRE : RE := .pred (fun c => c ≠ '\n')

/-- `r+`. -/
def plusRE (r : RE) : RE := .seq r (.star r)

/-- `r?`. -/
def optRE (r : RE) : RE := .alt .eps r

/-- `['"]`. -/
def quoteRE : RE := .pred (fun c => c = '\'' || c = '"')

/-- `(?i)(union\s+(all\s+)?select|union\s+\(?\s*select)`. -/
def unionBasedRE : RE :=
  .alt
    (catRE [litCI "union", plusRE wsRE, optRE (catRE [litCI "all", plusRE wsRE]),
            litCI "select"])
    (catRE [litCI "union", plusRE wsRE, optRE (litCI "("), .star wsRE,
            litCI "select"])

/-- `(?i)(\s+(and|or)\s+\d+\s*=\s*\d+|\s+(and|or)\s+['"]?\w+['"]?\s*=\s*['"]?\w+['"]?)`. -/
def booleanBasedRE : RE :=
  .alt
    (catRE [plusRE wsRE, .alt (litCI "and") (litCI "or"), plusRE wsRE,
            plusRE digitRE, .star wsRE, litCI "=", .star wsRE, plusRE digitRE])
    (catRE [plusRE wsRE, .alt (litCI "and") (litCI "or"), plusRE wsRE,
            optRE quoteRE, plusRE wordRE, optRE quoteRE, .star wsRE, litCI "=",
            .star wsRE, optRE quoteRE, plusRE wordRE, optRE quoteRE])

/-- `(?i)(sleep\s*\(|benchmark\s*\(|waitfor\s+delay|pg_sleep\s*\()`. -/
def timeBasedRE : RE :=
  altRE
    [catRE [litCI "sleep", .star wsRE, litCI "("],
     catRE [litCI "benchmark", .star wsRE, litCI "("],
     catRE [litCI "waitfor", plusRE wsRE, litCI "delay"],
     catRE [litCI "pg_sleep", .star wsRE, litCI "("]]

/-- `(?i)(\/\*.*?\*\/|--\s*.*?(\r|\n|$)|#.*?(\r|\n|$))`.  For
match-existence the suffixes `\s*.*?(\r|\n|$)` and `.*?(\r|\n|$)` are
always realizable (the `$` anchor matches at end of input with the lazy
`.*?` absorbing the rest), so the last two alternatives reduce to the
occurrence of `--` and `#`. -/
def commentInjRE : RE :=
  altRE
    [catRE [litCI "/*", .star dotRE, litCI "*/"],
     litCI "--",
     litCI "#"]

/-- `(?i)(;\s*(insert|update|delete|drop|create|alter|exec|execute))`. -/
def stackedQueriesRE : RE :=
  catRE [litCI ";", .star wsRE,
         altRE (["insert", "update", "delete", "drop", "create", "alter",
                 "exec", "execute"].map litCI)]

/-- `(?i)(extractvalue\s*\(|updatexml\s*\(|exp\s*\(~|floor\s*\(rand\s*\(\s*0\s*\)\s*\*\s*2\s*\))`. -/
def errorBasedRE : RE :=
  altRE
    [catRE [litCI "extractvalue", .star wsRE, litCI "("],
     catRE [litCI "updatexml", .star wsRE, litCI "("],
     catRE [litCI "exp", .star wsRE, litCI "(~"],
     catRE [litCI "floor", .star wsRE, litCI "(rand", .star wsRE, litCI "(",
            .star wsRE, litCI "0", .star wsRE, litCI ")", .star wsRE, litCI "*",
            .star wsRE, litCI "2", .star wsRE, litCI ")"]]

/-- `(?i)(information_schema\.(tables|columns|schemata|user_privileges))`. -/
def infoSchemaRE : RE :=
  catRE [litCI "information_schema.",
         altRE (["tables", "columns", "schemata", "user_privileges"].map litCI)]

/-- `(?i)(load_file\s*\(|into\s+outfile|into\s+dumpfile)`. -/
def fileOpsRE : RE :=
  altRE
    [catRE [litCI "load_file", .star wsRE, litCI "("],
     catRE [litCI "into", plusRE wsRE, litCI "outfile"],
     catRE [litCI "into", plusRE wsRE, litCI "dumpfile"]]

/-- `(?i)(substring\s*\(.*?,\s*\d+\s*,\s*1\s*\)|ascii\s*\(|length\s*\(.*?\)\s*=\s*\d+)`
(lazy `.*?` is equivalent to `.*` for match-existence). -/
def blindInjRE : RE :=
  altRE
    [catRE [litCI "substring", .star wsRE, litCI "(", .star dotRE, litCI ",",
            .star wsRE, plusRE digitRE, .star wsRE, litCI ",", .star wsRE,
            litCI "1", .star wsRE, litCI ")"],
     catRE [litCI "ascii", .star wsRE, litCI "("],
     catRE [litCI "length", .star wsRE, litCI "(", .star dotRE, litCI ")",
            .star wsRE, litCI "=", .star wsRE, plusRE digitRE]]

/-- `(?i)(extractvalue\s*\(|updatexml\s*\().*xpath`. -/
def xpathInjRE : RE :=
  catRE [.alt (catRE [litCI "extractvalue", .star wsRE, litCI "("])
              (catRE [litCI "updatexml", .star wsRE, litCI "("]),
         .star dotRE, litCI "xpath"]

/-- `_load_injection_patterns`: (name, risk_level, pattern). -/
def injectionPatterns : List (String × String × RE) :=
  [("Union Based Injection", "high", unionBasedRE),
   ("Boolean Based Injection", "medium", booleanBasedRE),
   ("Time Based Injection", "high", timeBasedRE),
   ("Comment Injection", "medium", commentInjRE),
   ("Stacked Queries", "high", stackedQueriesRE),
   ("Error Based Injection", "high", errorBasedRE),
   ("Information Schema Access", "medium", infoSchemaRE),
   ("File Operations", "high", fileOpsRE),
   ("Blind Injection", "medium", blindInjRE),
   ("XPath Injection", "medium", xpathInjRE)]

/-- `_load_suspicious_keywords`. -/
def suspiciousKeywords : List String :=
  ["script", "alert", "onload", "onerror", "javascript",
   "vbscript", "expression", "applet", "meta", "xml",
   "blink", "style", "embed", "object", "iframe",
   "frame", "frameset", "ilayer", "layer", "bgsound",
   "title", "base", "xss", "injection", "payload"]

/-- `_detect_injection_patterns`: one `(pattern_name, risk_level)`
detection per matching pattern, plus one low-tier "Suspicious Keywords"
detection when any keyword occurs in the lowercased text.  Per-match
metadata (span, matched snippet, per-detection confidence) and multiple
occurrences of one pattern are not modelled: the risk assessment below
depends only on which tiers are present. -/
def detectInjectionPatterns (sql : String) : List (String × String) :=
  ((injectionPatterns.filter (fun p => reSearch p.2.2 sql)).map
      (fun p => (p.1, p.2.1)))
    ++ (if (suspiciousKeywords.filter (fun k => strContains (strLower sql) k)).isEmpty
        then [] else [("Suspicious Keywords", "low")])

/-- Result of `analyze_query` (the confidence/context/recommendation
fields are not modelled; no claim concerns them). -/
structure RiskResult where
  risk_level : String
  analysis_performed : Bool
  cached : Bool
  detections : List (String × String)
deriving DecidableEq, Repr

/-- The max-tier computation of `_assess_risk`. -/
def maxRiskLevel (ds : List (String × String)) : String :=
  let tiers := ds.map Prod.snd
  if tiers.contains "high" then "high"
  else if tiers.contains "medium" then "medium"
  else if tiers.contains "low" then "low"
  else "none"

/-- `_assess_risk detections`: `none` for an empty detection list, else
the maximum matched tier. -/
def assessRisk (ds : List (String × String)) : RiskResult :=
  if ds.isEmpty then
    { risk_level := "none", analysis_performed := true, cached := false
      detections := [] }
  else
    { risk_level := maxRiskLevel ds, analysis_performed := true, cached := false
      detections := ds }

/-- `SQLInjectionDetector.analyze_query`.  `enabled` is the
`analyzers.sql_injection.enabled` flag; `cachedRecently` is the outcome
of `_is_recent_query` on the statement's structural hash (the md5-based
dedup cache). -/
def analyzeQuery (enabled cachedRecently : Bool) (sql : String) : RiskResult :=
  if !enabled then
    { risk_level := "none", analysis_performed := false, cached := false
      detections := [] }
  else if sql = "" then
    { risk_level := "none", analysis_performed := true, cached := false
      detections := [] }
  else if cachedRecently then
    { risk_level := "none", analysis_performed := true, cached := true
      detections := [] }
  else assessRisk (detectInjectionPatterns sql)

/-! ## `MySQLAuditMonitor.reload_config`
(mysql-audit-solution/src/audit_monitor.py) -/

/-- The four registry fields `reload_config` reassigns. -/
structure AuditMonitorState (C T R A : Type) where
  config : C
  target_tables : T
  rule_engine : R
  alert_manager : A
deriving DecidableEq, Repr

/-- `MySQLAuditMonitor.reload_config`, with the four fallible steps of its
`try` block as parameters: `_load_config()` (file read + YAML parse),
`_load_target_tables()` (reads the freshly assigned config),
`AuditRuleEngine(config)` and `AlertManager(config)`.
Modelled from the spec: the `AuditRuleEngine` / `AlertManager`
constructors live in `rule_engine.py` / `alert_manager.py`, which are not
under `src/`; per the spec an invalid registry spec raises a
`ConfigurationError` during reload, so each constructor is a fallible
step.  The `except` clause restores ONLY `self.config = old_config` and
re-raises; assignments already made to `target_tables`, `rule_engine`,
`alert_manager` are left in place.  The result pairs the raised/ok
outcome with the object state after the call. -/
def reloadConfig {C T R A : Type} (loadConfigStep : Except String C)
    (loadTablesStep : C → Except String T)
    (mkRuleEngine : C → Except String R)
    (mkAlertManager : C → Except String A)
    (st : AuditMonitorState C T R A) :
    Except String Unit × AuditMonitorState C T R A :=
  match loadConfigStep with
  | .error e => (.error e, st)
  | .ok cfg =>
      match loadTablesStep cfg with
      | .error e => (.error e, st)
      | .ok tt =>
          match mkRuleEngine cfg with
          | .error e =>
              (.error e, { st with target_tables := tt })
          | .ok ruleEng =>
              match mkAlertManager cfg with
              | .error e =>
                  (.error e, { st with target_tables := tt, rule_engine := ruleEng })
              | .ok alertMgr =>
                  (.ok (), { config := cfg, target_tables := tt
                             rule_engine := ruleEng, alert_manager := alertMgr })

/-! ## Spec-side definitions and concrete fixtures -/

/-- Is the event a row-mutation event (write/update/delete)? -/
def BinlogEvent.isRowEvent : BinlogEvent → Bool
  | .write .. => true
  | .update .. => true
  | .delete .. => true
  | _ => false

/-- The stored value of column `c` is within the masking boundary: absent,
`NULL`, or the image of some non-`NULL` value under `_mask_value` (the
masking functions themselves define the configured reveal boundary:
full redaction for password columns, fixed prefix/suffix reveals for
phone/email/card/account columns, the generic two-character reveal
otherwise). -/
def maskedEntry (c : String) (m : RowData) : Prop :=
  ∀ v, lookupVal m c = some v →
    v = Value.null ∨ ∃ w, w ≠ Value.null ∧ v = maskValue w c

/-- The diff-key condition following the spec's words (the refinement
target `_detect_changes` is compared against): a column differs when it
appears in only one of the two normalized maps, or appears in both with
different values. -/
def specDiffKey (old new : RowData) (c : String) : Prop :=
  (hasKey old c = true ∧ hasKey new c = false) ∨
  (hasKey old c = false ∧ hasKey new c = true) ∨
  (∃ ov nv, lookupVal old c = some ov ∧ lookupVal new c = some nv ∧ ov ≠ nv)

/-- A target-table spec with a sensitive `password` column. -/
def c1cfg : TableConfig :=
  { database := "shop", table := "users"
    operations := ["INSERT", "UPDATE", "DELETE"], track_columns := []
    primary_key := .single "id", sensitive_columns := ["password"] }

/-- Before image of an UPDATE touching the sensitive column. -/
def c1Before : RowData := [("id", Value.int 1), ("password", Value.str "secret123")]

/-- After image of an UPDATE touching the sensitive column. -/
def c1After : RowData := [("id", Value.int 1), ("password", Value.str "hunter2")]

/-- A concrete change record (an UPDATE at position
`mysql-bin.000001:4242`). -/
def sampleRecord : ChangeRecord :=
  { timestamp := 1700000000, operation_type := "UPDATE", database_name := "shop"
    table_name := "users", sql_statement := none, user_name := none
    thread_id := some 4242, rows_affected := 1, execution_time := 0
    before_values := some [("id", Value.int 1), ("name", Value.str "a")]
    after_values := some [("id", Value.int 1), ("name", Value.str "b")]
    source := "binlog_dml", binlog_file := some "mysql-bin.000001"
    binlog_pos := some 4242 }

/-- A monitored table spec without tracked/sensitive column filters. -/
def c3cfg : TableConfig :=
  { database := "shop", table := "users"
    operations := ["INSERT", "UPDATE", "DELETE"], track_columns := []
    primary_key := .single "id", sensitive_columns := [] }

/-- A write event on the monitored table. -/
def c3Event : BinlogEvent :=
  .write "shop" "users" "mysql-bin.000001" 500 [[("id", Value.int 7)]]

/-- What `parse_row_event` produces for `c3Event`. -/
def c3ParsedItem : ParsedItem :=
  .one { database := "shop", table := "users", operation := "INSERT"
         binlog_file := "mysql-bin.000001", binlog_pos := 500
         old_data := none, new_data := some [("id", Value.int 7)]
         changes := none, primary_key := [("id", Value.int 7)]
         affected_columns := ["id"] }

/-- An earlier parsed event already occupying the queue. -/
def c3Occupant : ParsedItem :=
  .one { database := "shop", table := "users", operation := "INSERT"
         binlog_file := "mysql-bin.000001", binlog_pos := 400
         old_data := none, new_data := some [("id", Value.int 6)]
         changes := none, primary_key := [("id", Value.int 6)]
         affected_columns := ["id"] }

/-- A reader whose bounded queue (capacity 1) is full. -/
def c3FullState : ReaderState :=
  { current_position := { log_file := "mysql-bin.000001", log_pos := 4 }
    event_queue := [c3Occupant], queue_maxsize := 1
    reader_targets := ["shop.users"]
    parser_targets := [("shop.users", c3cfg)]
    events_processed := 0, events_filtered := 0
    checkpoint_interval := 60, last_checkpoint_time := 0
    persisted_checkpoint := none }

/-- The same reader with room left in the queue. -/
def c3RoomState : ReaderState :=
  { c3FullState with queue_maxsize := 2 }

/-- A reader whose checkpoint interval (60 s) has elapsed. -/
def c8State : ReaderState :=
  { current_position := { log_file := "mysql-bin.000042", log_pos := 987654 }
    event_queue := [], queue_maxsize := 10000
    reader_targets := ["shop.users"], parser_targets := []
    events_processed := 12, events_filtered := 3
    checkpoint_interval := 60, last_checkpoint_time := 1700000000
    persisted_checkpoint := none }

/-! ## Helper lemmas -/

theorem lookupVal_setKey_self (m : RowData) (c : String) (v : Value) :
    lookupVal (setKey m c v) c = some v := by
  induction m with
  | nil => simp [setKey, lookupVal]
  | cons kv rest ih =>
      obtain ⟨k, w⟩ := kv
      by_cases h : k = c
      · simp [setKey, h, lookupVal]
      · simp [setKey, h, lookupVal, ih]

theorem lookupVal_setKey_other (m : RowData) (c c' : String) (v : Value)
    (h : c' ≠ c) : lookupVal (setKey m c v) c' = lookupVal m c' := by
  induction m with
  | nil =>
      simp only [setKey, lookupVal]
      rw [if_neg (Ne.symm h)]
  | cons kv rest ih =>
      obtain ⟨k, w⟩ := kv
      by_cases hk : k = c
      · subst hk
        simp only [setKey, if_pos rfl, lookupVal]
        rw [if_neg (Ne.symm h), if_neg (Ne.symm h)]
      · simp only [setKey, if_neg hk, lookupVal]
        by_cases hkc : k = c'
        · rw [if_pos hkc, if_pos hkc]
        · rw [if_neg hkc, if_neg hkc]
          exact ih

theorem lookupVal_maskCol_self (m : RowData) (c : String) :
    lookupVal (maskCol m c) c =
      (lookupVal m c).map (fun v => if v = Value.null then v else maskValue v c) := by
  unfold maskCol
  cases h : lookupVal m c with
  | none => simp [h]
  | some v =>
      by_cases hv : v = Value.null
      · simp [hv, h]
      · simp [hv, h, lookupVal_setKey_self]

theorem lookupVal_maskCol_other (m : RowData) (c c' : String) (h : c' ≠ c) :
    lookupVal (maskCol m c) c' = lookupVal m c' := by
  unfold maskCol
  cases lookupVal m c with
  | none => rfl
  | some v =>
      by_cases hv : v = Value.null
      · simp [hv]
      · simp [hv, lookupVal_setKey_other _ _ _ _ h]

/-- A non-`None` value never masks to `None` (`_mask_value` stringifies
and returns a string). -/
theorem maskValue_ne_null (w : Value) (c : String) (hw : w ≠ Value.null) :
    maskValue w c ≠ Value.null := by
  cases w with
  | null => exact absurd rfl hw
  | str s => simp only [maskValue]; split_ifs <;> simp
  | int n => simp only [maskValue]; split_ifs <;> simp

theorem maskedEntry_maskCol_self (m : RowData) (c : String) :
    maskedEntry c (maskCol m c) := by
  intro v hv
  rw [lookupVal_maskCol_self] at hv
  cases h : lookupVal m c with
  | none => rw [h] at hv; simp at hv
  | some w =>
      rw [h] at hv
      simp only [Option.map_some', Option.some.injEq] at hv
      by_cases hw : w = Value.null
      · left; rw [if_pos hw] at hv; rw [← hv, hw]
      · right; exact ⟨w, hw, by rw [if_neg hw] at hv; exact hv.symm⟩

theorem maskedEntry_maskCol_preserve (m : RowData) (c d : String)
    (h : maskedEntry c m) : maskedEntry c (maskCol m d) := by
  by_cases hcd : c = d
  · subst hcd; exact maskedEntry_maskCol_self m c
  · intro v hv
    rw [lookupVal_maskCol_other _ _ _ hcd] at hv
    exact h v hv

theorem maskedEntry_foldl_preserve (cols : List String) (m : RowData)
    (c : String) (h : maskedEntry c m) :
    maskedEntry c (cols.foldl maskCol m) := by
  induction cols generalizing m with
  | nil => exact h
  | cons d rest ih =>
      exact ih (maskCol m d) (maskedEntry_maskCol_preserve m c d h)

theorem maskedEntry_foldl (cols : List String) (m : RowData) (c : String)
    (hc : c ∈ cols) : maskedEntry c (cols.foldl maskCol m) := by
  induction cols generalizing m with
  | nil => cases hc
  | cons d rest ih =>
      rcases List.mem_cons.mp hc with h | h
      · subst h
        exact maskedEntry_foldl_preserve rest (maskCol m c) c
          (maskedEntry_maskCol_self m c)
      · exact ih _ h

theorem maskedEntry_maskSensitiveData (data : RowData) (cfg : TableConfig)
    (c : String) (hc : c ∈ cfg.sensitive_columns) :
    maskedEntry c (maskSensitiveData data cfg) := by
  unfold maskSensitiveData
  rw [if_neg]
  · exact maskedEntry_foldl _ data c hc
  · intro h
    rw [List.isEmpty_iff] at h
    rw [h] at hc
    cases hc

theorem hasKey_iff_mem_keys (d : RowData) (c : String) :
    hasKey d c = true ↔ c ∈ d.map Prod.fst := by
  induction d with
  | nil => simp [hasKey, lookupVal]
  | cons kv rest ih =>
      obtain ⟨k, v⟩ := kv
      by_cases h : k = c
      · simp [hasKey, lookupVal, h]
      · simp only [hasKey, lookupVal, if_neg h, List.map_cons, List.mem_cons]
        rw [← hasKey]
        rw [ih]
        constructor
        · exact Or.inr
        · rintro (rfl | hm)
          · exact absurd rfl h
          · exact hm

theorem detectChangesNew_keys_sub (old new : RowData) (c : String)
    (h : c ∈ (detectChangesNew old new).map Prod.fst) :
    c ∈ new.map Prod.fst := by
  induction new with
  | nil => simp [detectChangesNew] at h
  | cons kv rest ih =>
      obtain ⟨k, nv⟩ := kv
      simp only [detectChangesNew] at h
      split_ifs at h with hne
      · rcases List.mem_cons.mp h with h | h
        · simp at h
          simp [h]
        · exact List.mem_cons_of_mem _ (ih h)
      · exact List.mem_cons_of_mem _ (ih h)

theorem mem_keys_detectChangesNew (old new : RowData) (c : String)
    (hnew : (new.map Prod.fst).Nodup) :
    c ∈ (detectChangesNew old new).map Prod.fst ↔
      ∃ nv, lookupVal new c = some nv ∧ dictGet old c ≠ nv := by
  induction new with
  | nil => simp [detectChangesNew, lookupVal]
  | cons kv rest ih =>
      obtain ⟨k, nv⟩ := kv
      simp only [List.map_cons, List.nodup_cons] at hnew
      obtain ⟨hk, hrest⟩ := hnew
      by_cases hck : c = k
      · subst hck
        simp only [detectChangesNew, lookupVal, if_pos rfl]
        have hnot : c ∉ (detectChangesNew old rest).map Prod.fst := by
          intro hmem
          exact hk (detectChangesNew_keys_sub old rest c hmem)
        split_ifs with hne
        · constructor
          · intro _; exact ⟨nv, rfl, hne⟩
          · intro _
            simp only [List.map_cons]
            exact List.mem_cons_self _ _
        · constructor
          · intro hmem; exact absurd hmem hnot
          · rintro ⟨nv', hev, hne'⟩
            obtain rfl : nv = nv' := Option.some.inj hev
            exact absurd hne' hne
      · simp only [detectChangesNew, lookupVal, if_neg (Ne.symm hck)]
        split_ifs with hne
        · simp only [List.map_cons, List.mem_cons]
          rw [ih hrest]
          constructor
          · rintro (rfl | hmem)
            · exact absurd rfl hck
            · exact hmem
          · exact Or.inr
        · exact ih hrest

theorem mem_keys_detectChangesRemoved (new old : RowData) (c : String) :
    c ∈ (detectChangesRemoved new old).map Prod.fst ↔
      (c ∈ old.map Prod.fst ∧ hasKey new c = false) := by
  induction old with
  | nil => simp [detectChangesRemoved]
  | cons kv rest ih =>
      obtain ⟨k, ov⟩ := kv
      simp only [detectChangesRemoved, List.map_cons, List.mem_cons]
      by_cases hck : c = k
      · subst hck
        cases hnk : hasKey new c with
        | true => simp [hnk, ih]
        | false => simp [hnk, ih]
      · cases hnk : hasKey new k with
        | true => simp [hnk, ih, hck]
        | false => simp [hnk, ih, hck]

/-- The whitelist loop returns false whenever some exclude pattern matches
the full table name. -/
theorem whitelistScan_exclude (cfg : CollectorConfig) (full tableOnly : String)
    (ts : List String)
    (h : cfg.exclude_tables.any (fun ex => matchPattern full ex) = true) :
    whitelistScan cfg full tableOnly ts = false := by
  induction ts with
  | nil => rfl
  | cons t rest ih =>
      simp only [whitelistScan]
      split_ifs with hm
      · rw [h]; rfl
      · exact ih

/-! ## Claim theorems -/

/-- C1, counterexample: for an UPDATE changing the sensitive `password`
column, the per-column diff/`changes` map retains the full original
plaintext (`secret123` / `hunter2`), although the masking boundary for a
password column is full redaction (`***`) and the before/after maps are
duly masked — `_parse_update_row` computes the diff *before* masking. -/
theorem c1_sensitive_diff_plaintext_counterexample :
    (parseUpdateRow c1Before c1After c1cfg).changes
      = [("password", (Value.str "secret123", Value.str "hunter2"))]
    ∧ maskValue (Value.str "secret123") "password" = Value.str "***"
    ∧ (parseUpdateRow c1Before c1After c1cfg).old_data
        = [("id", Value.int 1), ("password", Value.str "***")]
    ∧ (parseUpdateRow c1Before c1After c1cfg).new_data
        = [("id", Value.int 1), ("password", Value.str "***")] := by
  refine ⟨by decide, by decide, by decide, by decide⟩

/-- C1, amended: masking is confined to the row maps — in the records
produced for INSERT, UPDATE and DELETE rows, every sensitive column's
entry of the before/after maps is within the masking functions' reveal
boundary (absent, `NULL`, or the `_mask_value` image of some value); the
UPDATE diff/`changes` map, computed before masking, is NOT masked and
retains the original plaintext of changed sensitive columns. -/
theorem c1_masking_confined_to_row_maps (cfg : TableConfig)
    (before after values : RowData) (c : String)
    (hc : c ∈ cfg.sensitive_columns) :
    maskedEntry c ((parseUpdateRow before after cfg).old_data)
    ∧ maskedEntry c ((parseUpdateRow before after cfg).new_data)
    ∧ maskedEntry c ((parseInsertRow values cfg).new_data)
    ∧ maskedEntry c ((parseDeleteRow values cfg).old_data) :=
  ⟨maskedEntry_maskSensitiveData _ cfg c hc,
   maskedEntry_maskSensitiveData _ cfg c hc,
   maskedEntry_maskSensitiveData _ cfg c hc,
   maskedEntry_maskSensitiveData _ cfg c hc⟩

/-- C1, witness for the amended theorem at the concrete fixture. -/
theorem c1_masking_confined_witness :
    "password" ∈ c1cfg.sensitive_columns
    ∧ (maskedEntry "password" ((parseUpdateRow c1Before c1After c1cfg).old_data)
       ∧ maskedEntry "password" ((parseUpdateRow c1Before c1After c1cfg).new_data)
       ∧ maskedEntry "password" ((parseInsertRow c1Before c1cfg).new_data)
       ∧ maskedEntry "password" ((parseDeleteRow c1Before c1cfg).old_data)) :=
  ⟨by decide,
   c1_masking_confined_to_row_maps c1cfg c1Before c1After c1Before "password"
     (by decide)⟩

/-- C2, counterexample: appending the same change record twice is not
idempotent — the store ends up with two rows, not one, because
`store_change` performs a plain `INSERT` with no position-based dedup. -/
theorem c2_append_idempotence_counterexample :
    storeChange false false (storeChange false false emptyStorage sampleRecord)
        sampleRecord
      ≠ storeChange false false emptyStorage sampleRecord
    ∧ (storeChange false false (storeChange false false emptyStorage sampleRecord)
        sampleRecord).changes.length = 2
    ∧ (storeChange false false emptyStorage sampleRecord).changes.length = 1 := by
  refine ⟨by decide, by decide, by decide⟩

/-- C2, amended: `store_change` is a plain autoincrement insert — every
successful append adds one more stored row at the record's binlog
position, even when rows at that (equal-or-prior) position are already
stored, so replaying the same raw event stores a duplicate record. -/
theorem c2_append_always_inserts (st : StorageState) (r : ChangeRecord) :
    countAtPos (storeChange false false st r) r.binlog_file r.binlog_pos
      = countAtPos st r.binlog_file r.binlog_pos + 1 := by
  simp [storeChange, storeChangeBody, countAtPos, List.filter_append]

/-- C3, counterexample: with the bounded queue full (capacity 1), a row
event on a monitored table parses successfully but is dropped — the
queue is unchanged and the parsed item is nowhere in it (`put(timeout=1)`
raises `queue.Full`, which `_process_binlog_event` catches and logs as a
discarded event). -/
theorem c3_full_queue_drop_counterexample :
    parseRowEvent c3FullState.parser_targets c3Event = some c3ParsedItem
    ∧ (processBinlogEvent c3FullState c3Event).event_queue = [c3Occupant]
    ∧ c3ParsedItem ∉ (processBinlogEvent c3FullState c3Event).event_queue := by
  refine ⟨by decide, by decide, by decide⟩

/-- C3, amended: the producer does not block indefinitely on a full
queue — a parsed event of a monitored row event is enqueued exactly when
the queue has room, and is dropped (queue unchanged) when the queue is
full at the put. -/
theorem c3_enqueue_or_drop (st : ReaderState) (ev : BinlogEvent)
    (item : ParsedItem)
    (hrow : ev.isRowEvent = true)
    (htgt : isTargetTableEvent st ev = true)
    (hparse : parseRowEvent st.parser_targets ev = some item) :
    (processBinlogEvent st ev).event_queue =
      if st.event_queue.length < st.queue_maxsize
      then st.event_queue ++ [item] else st.event_queue := by
  cases ev <;>
    simp_all [processBinlogEvent, BinlogEvent.isRowEvent, isTargetTableEvent] <;>
    split_ifs <;> rfl

/-- C3, witness for the amended theorem: with room in the queue the
parsed item is appended. -/
theorem c3_enqueue_or_drop_witness :
    (processBinlogEvent c3RoomState c3Event).event_queue =
      if c3RoomState.event_queue.length < c3RoomState.queue_maxsize
      then c3RoomState.event_queue ++ [c3ParsedItem]
      else c3RoomState.event_queue :=
  c3_enqueue_or_drop c3RoomState c3Event c3ParsedItem (by decide) (by decide)
    (by decide)

/-- C4, counterexample: a column present only in the after map with a
`NULL` value satisfies the spec's diff condition (appearance counts as a
difference) but `_detect_changes` does not report it:
`old_data.get(column)` yields `None` for the absent column, which
compares equal to the new `NULL` value. -/
theorem c4_diff_keys_counterexample :
    specDiffKey [] [("c", Value.null)] "c"
    ∧ detectChanges [] [("c", Value.null)] = [] := by
  exact ⟨Or.inr (Or.inl ⟨by decide, by decide⟩), by decide⟩

/-- C4, amended: the diff keys of `_detect_changes` are exactly the
columns of the (normalized) after map whose value differs from the
before map's value-or-`NULL`, plus the columns present only in the
before map; a column appearing only in the after map with a `NULL` value
is not reported.  (`new` is a dict image, so its keys are assumed
distinct.) -/
theorem c4_diff_keys_characterization (old new : RowData) (c : String)
    (hnew : (new.map Prod.fst).Nodup) :
    c ∈ (detectChanges old new).map Prod.fst ↔
      ((∃ nv, lookupVal new c = some nv ∧ dictGet old c ≠ nv) ∨
        (c ∈ old.map Prod.fst ∧ hasKey new c = false)) := by
  unfold detectChanges
  rw [List.map_append, List.mem_append,
      mem_keys_detectChangesNew old new c hnew,
      mem_keys_detectChangesRemoved new old c]

/-- C4, witness for the amended theorem at a concrete pair of maps. -/
theorem c4_diff_keys_characterization_witness :
    "a" ∈ (detectChanges [("a", Value.int 1), ("b", Value.int 2)]
        [("a", Value.int 3)]).map Prod.fst ↔
      ((∃ nv, lookupVal [("a", Value.int 3)] "a" = some nv
          ∧ dictGet [("a", Value.int 1), ("b", Value.int 2)] "a" ≠ nv) ∨
        ("a" ∈ [("a", Value.int 1), ("b", Value.int 2)].map Prod.fst
          ∧ hasKey [("a", Value.int 3)] "a" = false)) :=
  c4_diff_keys_characterization _ _ "a" (by decide)

/-- C5: with the analyzer enabled and the statement not in the dedup
cache, the UNION-injection probe is rated `high` with a
"Union Based Injection" detection among its matches, and the benign
lookup is rated `none`. -/
theorem c5_injection_analyzer_examples :
    (analyzeQuery true false
      "SELECT * FROM users WHERE id=1 UNION SELECT user,pass FROM admin").risk_level
        = "high"
    ∧ ("Union Based Injection", "high") ∈ (analyzeQuery true false
        "SELECT * FROM users WHERE id=1 UNION SELECT user,pass FROM admin").detections
    ∧ (analyzeQuery true false "SELECT * FROM users WHERE id=1").risk_level
        = "none" := by
  refine ⟨by decide, by decide, by decide⟩

/-- C6: whenever some exclude pattern matches `database.table`, the
capture predicate `_should_monitor_table` returns false — in whitelist
mode, in blacklist mode, and in any other mode (the predicate does not
depend on the operation). -/
theorem c6_exclude_always_wins (cfg : CollectorConfig) (schema table : String)
    (h : cfg.exclude_tables.any
      (fun ex => matchPattern (schema ++ "." ++ table) ex) = true) :
    shouldMonitorTable cfg schema table = false := by
  unfold shouldMonitorTable
  split_ifs with h1 h2 h3 h4
  · rfl
  · rfl
  · exact whitelistScan_exclude cfg _ table _ h
  · simp [h]
  · rfl

/-- C6, witness: a whitelisted table that also matches an exclude glob is
not captured. -/
theorem c6_exclude_always_wins_witness :
    (CollectorConfig.mk "whitelist" [] ["db.logs"] ["db.l*"]).exclude_tables.any
      (fun ex => matchPattern ("db" ++ "." ++ "logs") ex) = true
    ∧ shouldMonitorTable (CollectorConfig.mk "whitelist" [] ["db.logs"] ["db.l*"])
        "db" "logs" = false :=
  ⟨by decide,
   c6_exclude_always_wins (CollectorConfig.mk "whitelist" [] ["db.logs"] ["db.l*"])
     "db" "logs" (by decide)⟩

/-- C7: `_should_alert` is true exactly when the record's table is in the
critical-table set, or the operation is DDL, or the operation is DELETE,
or `rows_affected` reaches the bulk threshold; `_handle_change` emits one
alert when it is true and none otherwise. -/
theorem c7_alert_decision_iff (cfg : AlertSettings) (r : ChangeRecord) :
    (shouldAlert cfg r = true ↔
      (r.table_name ∈ cfg.critical_tables ∨ r.operation_type = "DDL" ∨
       r.operation_type = "DELETE" ∨ cfg.bulk_threshold ≤ r.rows_affected))
    ∧ (alertsEmitted cfg r ≥ 1 ↔ shouldAlert cfg r = true)
    ∧ (alertsEmitted cfg r = 0 ↔ shouldAlert cfg r = false) := by
  refine ⟨?_, ?_, ?_⟩
  · unfold shouldAlert
    split_ifs with h1 h2 h3 h4 <;> simp_all [List.elem_iff]
  · unfold alertsEmitted
    cases h : shouldAlert cfg r <;> simp [h]
  · unfold alertsEmitted
    cases h : shouldAlert cfg r <;> simp [h]

/-- C8: on a due checkpoint tick, `_save_checkpoint` only resets the
in-memory timer — the durable checkpoint record is left untouched (for
any state), and at the concrete failing input (position
`mysql-bin.000042:987654`, interval elapsed) no position is persisted, so
nothing can be read back after a restart. -/
theorem c8_checkpoint_tick_persists_nothing :
    (∀ (st : ReaderState) (now : Int),
      (saveCheckpoint st now).persisted_checkpoint = st.persisted_checkpoint
      ∧ (saveCheckpoint st now).current_position = st.current_position
      ∧ (saveCheckpoint st now).last_checkpoint_time = now)
    ∧ shouldCheckpoint c8State 1700000100 = true
    ∧ (saveCheckpoint c8State 1700000100).persisted_checkpoint = none := by
  exact ⟨fun st now => ⟨rfl, rfl, rfl⟩, by decide, rfl⟩

/-- C9, counterexample: a reload whose last step (the alert-manager
construction) fails leaves a torn state — `target_tables` and
`rule_engine` already hold the new values while `config` and
`alert_manager` hold the old ones — so the prior registry state does NOT
remain unchanged on error. -/
theorem c9_failed_reload_atomicity_counterexample :
    (@reloadConfig Nat Nat Nat Nat (.ok 1) (fun c => .ok (c + 10))
        (fun c => .ok (c + 20)) (fun _ => .error "invalid alert settings")
        ⟨0, 100, 200, 300⟩)
      = (.error "invalid alert settings", ⟨0, 11, 21, 300⟩)
    ∧ (⟨0, 11, 21, 300⟩ : AuditMonitorState Nat Nat Nat Nat) ≠ ⟨0, 100, 200, 300⟩ := by
  exact ⟨rfl, by decide⟩

/-- C9, amended: on any failed reload only `config` (restored by the
`except` clause) and `alert_manager` (assigned last) are guaranteed to
equal their prior values; `target_tables` and `rule_engine` may already
hold new values, so a failed reload can leave a mixed registry state. -/
theorem c9_failed_reload_partial_restore {C T R A : Type}
    (lc : Except String C) (lt : C → Except String T)
    (mr : C → Except String R) (ma : C → Except String A)
    (st : AuditMonitorState C T R A) (e : String)
    (h : (reloadConfig lc lt mr ma st).1 = .error e) :
    (reloadConfig lc lt mr ma st).2.config = st.config
    ∧ (reloadConfig lc lt mr ma st).2.alert_manager = st.alert_manager := by
  unfold reloadConfig at h ⊢
  cases lc with
  | error e' => exact ⟨rfl, rfl⟩
  | ok cfg =>
      cases hlt : lt cfg with
      | error e' => simp [hlt]
      | ok tt =>
          cases hmr : mr cfg with
          | error e' => simp [hlt, hmr]
          | ok ruleEng =>
              cases hma : ma cfg with
              | error e' => simp [hlt, hmr, hma]
              | ok alertMgr => simp [hlt, hmr, hma] at h

/-- C9, witness for the amended theorem at the concrete failing reload. -/
theorem c9_failed_reload_partial_restore_witness :
    (@reloadConfig Nat Nat Nat Nat (.ok 1) (fun c => .ok (c + 10))
        (fun c => .ok (c + 20)) (fun _ => .error "invalid alert settings")
        ⟨0, 100, 200, 300⟩).2.config
      = (⟨0, 100, 200, 300⟩ : AuditMonitorState Nat Nat Nat Nat).config
    ∧ (@reloadConfig Nat Nat Nat Nat (.ok 1) (fun c => .ok (c + 10))
        (fun c => .ok (c + 20)) (fun _ => .error "invalid alert settings")
        ⟨0, 100, 200, 300⟩).2.alert_manager
      = (⟨0, 100, 200, 300⟩ : AuditMonitorState Nat Nat Nat Nat).alert_manager :=
  c9_failed_reload_partial_restore _ _ _ _ _ "invalid alert settings" rfl

/-- C10, counterexample: a failure in the statistics-update step (after
the insert committed) is swallowed — the call returns normally — but
the record IS stored, contradicting "the record is silently not stored"
for every internal failure. -/
theorem c10_swallow_counterexample :
    storeChangeBody false true emptyStorage sampleRecord
      = .error ("Failed to store change record",
          { changes := [sampleRecord], stats := [] })
    ∧ storeChange false true emptyStorage sampleRecord
      = { changes := [sampleRecord], stats := [] } := by
  exact ⟨rfl, rfl⟩

/-- C10, amended: `store_change` never propagates an exception (the
`except` clause only logs, and the call returns the reached state); when
the insert step itself raises, the record is not stored; when the insert
succeeds, the record is stored even if the subsequent statistics update
raises. -/
theorem c10_swallowed_failure_semantics (storeRaises statsRaises : Bool)
    (st : StorageState) (r : ChangeRecord) :
    (storeRaises = true → storeChange storeRaises statsRaises st r = st)
    ∧ (storeRaises = false →
        (storeChange storeRaises statsRaises st r).changes = st.changes ++ [r]) := by
  cases storeRaises <;> cases statsRaises <;> simp [storeChange, storeChangeBody]

/-- C10, witness for the amended theorem: stats-step failure, record
still appended. -/
theorem c10_swallowed_failure_semantics_witness :
    (storeChange false true emptyStorage sampleRecord).changes
      = emptyStorage.changes ++ [sampleRecord] :=
  (c10_swallowed_failure_semantics false true emptyStorage sampleRecord).2 rfl

end Pipeline
